import Mathlib

/-!
Shallow embedding of the post-scheduling and multi-platform-publishing
subsystem of the `swym_social` repository, covering:

* `app/models/content.py` — the `Post` data model (`Platform`,
  `ContentStatus`, and the `Post` columns used by the scheduler);
* `app/services/social_publisher.py` — `LinkedInPublisher.publish`,
  `TwitterPublisher.publish`, `InstagramPublisher.publish`;
* `app/scheduler/post_scheduler.py` — `PostScheduler.schedule_post`,
  `reschedule_post`, `cancel_post`, `publish_post`, and the scheduler's
  `job_defaults` configuration;
* `app/api/endpoints/posts.py` — the `publish_post_now` endpoint.

Conventions of the embedding:

* Python strings holding post text are modelled as `List Char` so that
  Python's code-point slicing (`s[:277]`) and `len` are exact.
* Timestamps are `Nat` (an abstract instant); `datetime.utcnow()` at a given
  call is an environment field.
* Network effects are explicit: each publisher returns the list of HTTP
  requests it performed together with its structured result dictionary, and
  the environment (`NetEnv`) fixes the responses the platform would give.
* Database effects are explicit state passing over `SchedState` (the posts
  table and the APScheduler job store).  `session.add(p); session.commit()`
  is an upsert of `p` into the posts table keyed by `id`; exceptions raised
  by the persistence layer or by APScheduler calls are injected through
  `DbEnv`, matching the `try/except` structure of the source, which catches
  every exception and returns `False`.
-/

/-- `Platform` enum from `app/models/content.py`. -/
inductive Platform
  | linkedin
  | twitter
  | instagram
  | youtube
deriving DecidableEq, Repr

/-- The `.value` of each `Platform` member, as in the Python enum. -/
def Platform.value : Platform → String
  | .linkedin => "linkedin"
  | .twitter => "twitter"
  | .instagram => "instagram"
  | .youtube => "youtube"

/-- `ContentStatus` enum from `app/models/content.py`. -/
inductive ContentStatus
  | draft
  | approved
  | scheduled
  | published
  | failed
  | rejected
deriving DecidableEq, Repr

/-- The structured result dictionary returned by every publisher operation:
`{success, post_id?, post_url?, error?, platform, timestamp}`. -/
structure PublishResult where
  success : Bool
  post_id : Option String
  post_url : Option String
  error : Option String
  platform : Option String
  timestamp : Option String
deriving DecidableEq, Repr

/-- Values that the scheduler would store into a post's JSON metadata map:
plain strings, possibly-`None` strings, or a whole publish-result dict. -/
inductive MetaVal
  | str (s : String)
  | optStr (o : Option String)
  | result (r : PublishResult)
deriving DecidableEq, Repr

/-- The `Post` model of `app/models/content.py`, restricted to the columns
the scheduler and publishers read or write.  Note the JSON column is named
`meta_data` in the model (line 87), because the SQLAlchemy declarative API
reserves the attribute name `metadata` for the table-registry object. -/
structure Post where
  id : Nat
  text_content : List Char
  image_path : Option String
  status : ContentStatus
  platform : Platform
  scheduled_time : Option Nat
  published_time : Option Nat
  external_id : Option String
  external_url : Option String
  meta_data : Option (List (String × MetaVal))
deriving DecidableEq, Repr

/-- The HTTP requests a publisher can perform, with the payload fields the
claims are about (submitted text and whether a media attachment was noted). -/
inductive NetRequest
  | linkedinUgcPost (text : List Char) (hasImage : Bool)
  | twitterAuth
  | twitterTweet (text : List Char) (hasImage : Bool)
  | instagramMediaPublish (caption : List Char)
deriving DecidableEq, Repr

/-- Environment for one publish call: the response the platform would give
to the main call, the bearer token Twitter's auth step would yield, the
filesystem (`os.path.exists`), and the current time. -/
structure NetEnv where
  status_code : Nat
  response_id : Option String
  response_text : String
  bearer_token : Option String
  fileExists : String → Bool
  now : Nat
  now_iso : String

/-- Python truthiness of an optional string: `None` and `""` are falsy. -/
def pyTruthyStr : Option String → Bool
  | none => false
  | some s => !(s == "")

/-- Python rendering of an optional string inside an f-string: `None`
prints as `"None"`. -/
def pyStrOfOpt : Option String → String
  | none => "None"
  | some s => s

/-- The test `post.image_path and os.path.exists(post.image_path)` used by
all three publishers. -/
def hasValidImage (env : NetEnv) (post : Post) : Bool :=
  match post.image_path with
  | none => false
  | some p => (!(p == "")) && env.fileExists p

/-- `LinkedInPublisher` credentials (`access_token`). -/
structure LinkedInPublisher where
  access_token : Option String

/-- `LinkedInPublisher.publish` (social_publisher.py lines 69-143):
missing token short-circuits; otherwise one POST to `/ugcPosts` with the
post text is made, and status 201 maps to success with
`post_id = x-restli-id` and the constructed feed-update URL. -/
def LinkedInPublisher.publish (pub : LinkedInPublisher) (env : NetEnv) (post : Post) :
    List NetRequest × PublishResult :=
  if !(pyTruthyStr pub.access_token) then
    ([], { success := false, post_id := none, post_url := none,
           error := some "LinkedIn access token not configured",
           platform := none, timestamp := none })
  else
    let req := NetRequest.linkedinUgcPost post.text_content (hasValidImage env post)
    if env.status_code == 201 then
      ([req], { success := true, post_id := env.response_id,
                post_url := some ("https://www.linkedin.com/feed/update/" ++
                  pyStrOfOpt env.response_id),
                error := none, platform := some "linkedin",
                timestamp := some env.now_iso })
    else
      ([req], { success := false, post_id := none, post_url := none,
                error := some ("LinkedIn API error: " ++ toString env.status_code ++
                  " - " ++ env.response_text),
                platform := some "linkedin", timestamp := some env.now_iso })

/-- The Twitter text-limit handling (social_publisher.py lines 318-321):
`if len(tweet_text) > 280: tweet_text = tweet_text[:277] + "..."`. -/
def tweetTextOf (t : List Char) : List Char :=
  if 280 < t.length then t.take 277 ++ ['.', '.', '.'] else t

/-- `TwitterPublisher` credentials. -/
structure TwitterPublisher where
  api_key : Option String
  api_secret : Option String
  access_token : Option String
  access_secret : Option String

/-- The `all([...])` credentials check of `TwitterPublisher`. -/
def TwitterPublisher.configured (pub : TwitterPublisher) : Bool :=
  pyTruthyStr pub.api_key && pyTruthyStr pub.api_secret &&
  pyTruthyStr pub.access_token && pyTruthyStr pub.access_secret

/-- `TwitterPublisher.publish` (social_publisher.py lines 291-365): missing
credentials short-circuit; `_get_bearer_token` performs the auth POST and its
result is checked for truthiness; the tweet text is truncated by
`tweetTextOf`; status 201 maps to success with the tweet id and URL. -/
def TwitterPublisher.publish (pub : TwitterPublisher) (env : NetEnv) (post : Post) :
    List NetRequest × PublishResult :=
  if !pub.configured then
    ([], { success := false, post_id := none, post_url := none,
           error := some "Twitter API credentials not configured",
           platform := none, timestamp := none })
  else if !(pyTruthyStr env.bearer_token) then
    ([NetRequest.twitterAuth],
     { success := false, post_id := none, post_url := none,
       error := some "Failed to authenticate with Twitter",
       platform := none, timestamp := none })
  else
    let req := NetRequest.twitterTweet (tweetTextOf post.text_content)
      (hasValidImage env post)
    if env.status_code == 201 then
      ([NetRequest.twitterAuth, req],
       { success := true, post_id := env.response_id,
         post_url := some ("https://twitter.com/user/status/" ++
           pyStrOfOpt env.response_id),
         error := none, platform := some "twitter",
         timestamp := some env.now_iso })
    else
      ([NetRequest.twitterAuth, req],
       { success := false, post_id := none, post_url := none,
         error := some ("Twitter API error: " ++ toString env.status_code ++
           " - " ++ env.response_text),
         platform := some "twitter", timestamp := some env.now_iso })

/-- `InstagramPublisher` credentials. -/
structure InstagramPublisher where
  client_id : Option String
  client_secret : Option String
  access_token : Option String

/-- The `all([...])` credentials check of `InstagramPublisher`. -/
def InstagramPublisher.configured (pub : InstagramPublisher) : Bool :=
  pyTruthyStr pub.client_id && pyTruthyStr pub.client_secret &&
  pyTruthyStr pub.access_token

/-- `InstagramPublisher.publish` (social_publisher.py lines 498-559):
missing credentials short-circuit; then
`if not post.image_path or not os.path.exists(post.image_path)` fails fast
with the image-required error before any network call; otherwise one POST to
`/me/media_publish` is made and status 200 maps to success. -/
def InstagramPublisher.publish (pub : InstagramPublisher) (env : NetEnv) (post : Post) :
    List NetRequest × PublishResult :=
  if !pub.configured then
    ([], { success := false, post_id := none, post_url := none,
           error := some "Instagram API credentials not configured",
           platform := none, timestamp := none })
  else if !(hasValidImage env post) then
    ([], { success := false, post_id := none, post_url := none,
           error := some "Instagram posts require an image",
           platform := none, timestamp := none })
  else
    let req := NetRequest.instagramMediaPublish post.text_content
    if env.status_code == 200 then
      ([req], { success := true, post_id := env.response_id,
                post_url := some ("https://www.instagram.com/p/" ++
                  pyStrOfOpt env.response_id),
                error := none, platform := some "instagram",
                timestamp := some env.now_iso })
    else
      ([req], { success := false, post_id := none, post_url := none,
                error := some ("Instagram API error: " ++ toString env.status_code ++
                  " - " ++ env.response_text),
                platform := some "instagram", timestamp := some env.now_iso })

/-- One APScheduler job as stored in the job store: its string id, trigger
time (`run_date`), and the `args` passed to `publish_post`. -/
structure Job where
  job_id : String
  run_date : Nat
  arg_post_id : Nat
  arg_platform : Platform
deriving DecidableEq, Repr

/-- The shared mutable state the scheduler operates on: the posts table and
the APScheduler job store. -/
structure SchedState where
  posts : List Post
  jobs : List Job
deriving DecidableEq, Repr

/-- The job key `f"post_{post.id}_{post.platform.value}"`. -/
def jobIdFor (pid : Nat) (pf : Platform) : String :=
  "post_" ++ toString pid ++ "_" ++ pf.value

/-- `session.query(Post).filter(Post.id == post_id).first()`. -/
def getPost (st : SchedState) (pid : Nat) : Option Post :=
  st.posts.find? (fun p => p.id == pid)

/-- Upsert of a post into the posts table, keyed by `id`: this is the
observable effect of `session.add(post); session.commit()`. -/
def upsertPost (ps : List Post) (p : Post) : List Post :=
  if ps.any (fun q => q.id == p.id) then
    ps.map (fun q => if q.id == p.id then p else q)
  else ps ++ [p]

/-- `session.add(post); session.commit()` on the scheduler state. -/
def savePost (st : SchedState) (p : Post) : SchedState :=
  { st with posts := upsertPost st.posts p }

/-- `scheduler.add_job(..., id=job_id, replace_existing=True, ...)`. -/
def addOrReplaceJob (st : SchedState) (j : Job) : SchedState :=
  { st with jobs := (st.jobs.filter (fun k => !(k.job_id == j.job_id))) ++ [j] }

/-- Whether the job store holds a job with the given id; APScheduler's
`reschedule_job` and `remove_job` raise `JobLookupError` when it does not. -/
def jobExists (st : SchedState) (jid : String) : Bool :=
  st.jobs.any (fun k => k.job_id == jid)

/-- `scheduler.reschedule_job(job_id, trigger='date', run_date=t)` when the
job exists: its trigger time is replaced. -/
def rescheduleJobReg (st : SchedState) (jid : String) (t : Nat) : SchedState :=
  { st with jobs := st.jobs.map (fun k =>
      if k.job_id == jid then { k with run_date := t } else k) }

/-- `scheduler.remove_job(job_id)` when the job exists. -/
def removeJobReg (st : SchedState) (jid : String) : SchedState :=
  { st with jobs := st.jobs.filter (fun k => !(k.job_id == jid)) }

/-- Failure injection for one scheduler operation, mirroring its
`try/except` block: whether the `session.commit()` raises, and whether the
APScheduler mutation (`add_job`) raises for a reason other than a missing
job (for `reschedule_job`/`remove_job` the missing-job case is determined by
the state itself). -/
structure DbEnv where
  commitFails : Bool
  addJobFails : Bool

/-- The `job_defaults` configuration handed to `BackgroundScheduler` in
`PostScheduler.__init__` (post_scheduler.py lines 41-44). -/
structure JobDefaults where
  coalesce : Bool
  max_instances : Nat

/-- `job_defaults = \x7b'coalesce': False, 'max_instances': 3\x7d`. -/
def schedulerJobDefaults : JobDefaults :=
  { coalesce := false, max_instances := 3 }

/-- The per-platform publishers dictionary built in
`PostScheduler.__init__`: LinkedIn, Twitter and Instagram publishers with
their credentials; no entry exists for Youtube. -/
structure PublisherConfig where
  linkedin : LinkedInPublisher
  twitter : TwitterPublisher
  instagram : InstagramPublisher

/-- `self.publishers.get(platform)` followed by `publisher.publish(post)`:
`none` models the dictionary lookup returning `None` (Youtube). -/
def dispatchPublish (cfg : PublisherConfig) (env : NetEnv) (pf : Platform) (post : Post) :
    Option (List NetRequest × PublishResult) :=
  match pf with
  | .linkedin => some (cfg.linkedin.publish env post)
  | .twitter => some (cfg.twitter.publish env post)
  | .instagram => some (cfg.instagram.publish env post)
  | .youtube => none

/-- The metadata-recording step of `PostScheduler.publish_post`
(post_scheduler.py lines 206-215 and 225-235):

    if post.metadata: metadata = post.metadata
    else: metadata = \x7b\x7d
    metadata.update(\x7b...entries...\x7d)
    post.metadata = metadata

In the source this step always raises.  The mapped JSON column of the `Post`
model is named `meta_data` (content.py line 87) because SQLAlchemy's
declarative API reserves the attribute name `metadata`; `post.metadata`
therefore resolves to the declarative base's table-registry `MetaData`
object (which is truthy), and `metadata.update(...)` raises
`AttributeError` since `MetaData` has no `update` method.  The exception is
caught by the enclosing `except`, so `publish_post` returns `False` before
the session is committed.  `none` models the raised exception; the
(unreachable) `some` result would be the intended merge of the entries into
the existing map. -/
def metadataUpdateStep (_existing : Option (List (String × MetaVal)))
    (_entries : List (String × MetaVal)) : Option (List (String × MetaVal)) :=
  none

/-- `PostScheduler.schedule_post` (post_scheduler.py lines 70-103): sets
`status = SCHEDULED` and `scheduled_time`, commits, then registers the job
with `replace_existing=True`; any exception is caught and `False` is
returned, with no rollback of what already happened. -/
def PostScheduler.schedule_post (env : DbEnv) (st : SchedState) (post : Post)
    (publish_time : Nat) : Bool × SchedState :=
  if env.commitFails then (false, st)
  else
    let st1 := savePost st
      { post with status := ContentStatus.scheduled,
                  scheduled_time := some publish_time }
    if env.addJobFails then (false, st1)
    else
      (true, addOrReplaceJob st1
        { job_id := jobIdFor post.id post.platform,
          run_date := publish_time,
          arg_post_id := post.id,
          arg_platform := post.platform })

/-- `PostScheduler.reschedule_post` (post_scheduler.py lines 105-134):
updates `scheduled_time`, commits, then calls `reschedule_job`, which
raises `JobLookupError` when no job with that id exists; the exception is
caught and `False` is returned, with the commit already done. -/
def PostScheduler.reschedule_post (env : DbEnv) (st : SchedState) (post : Post)
    (new_publish_time : Nat) : Bool × SchedState :=
  if env.commitFails then (false, st)
  else
    let st1 := savePost st { post with scheduled_time := some new_publish_time }
    let jid := jobIdFor post.id post.platform
    if jobExists st1 jid then (true, rescheduleJobReg st1 jid new_publish_time)
    else (false, st1)

/-- `PostScheduler.cancel_post` (post_scheduler.py lines 136-161): sets
`status = DRAFT`, clears `scheduled_time`, commits, then calls
`remove_job`, which raises `JobLookupError` when no job with that id
exists; the exception is caught and `False` is returned, with the commit
already done. -/
def PostScheduler.cancel_post (env : DbEnv) (st : SchedState) (post : Post) :
    Bool × SchedState :=
  if env.commitFails then (false, st)
  else
    let st1 := savePost st
      { post with status := ContentStatus.draft, scheduled_time := none }
    let jid := jobIdFor post.id post.platform
    if jobExists st1 jid then (true, removeJobReg st1 jid)
    else (false, st1)

/-- `PostScheduler.publish_post` (post_scheduler.py lines 163-247): the
firing path.  Fetches the post in a fresh session (the session plumbing of
lines 175-176 is modelled, generously, as a working fetch from the shared
state), rejects a missing post and a post whose status is neither Scheduled
nor Approved, looks up the publisher, invokes it, and then attempts to
record the outcome.  The recording step (`metadataUpdateStep`) raises in
both branches, so the function returns `False` without committing; the
field assignments made on the session object before the exception are never
persisted.  The result is `(return value, state, requests performed)`. -/
def PostScheduler.publish_post (cfg : PublisherConfig) (env : NetEnv)
    (st : SchedState) (post_id : Nat) (platform : Platform) :
    Bool × SchedState × List NetRequest :=
  match getPost st post_id with
  | none => (false, st, [])
  | some post =>
    if post.status ≠ ContentStatus.scheduled ∧ post.status ≠ ContentStatus.approved then
      (false, st, [])
    else
      match dispatchPublish cfg env platform post with
      | none => (false, st, [])
      | some (reqs, result) =>
        if result.success then
          match metadataUpdateStep post.meta_data
              [("publish_result", MetaVal.result result)] with
          | none => (false, st, reqs)
          | some m =>
            (true,
             savePost st
               { post with status := ContentStatus.published,
                           published_time := some env.now,
                           external_id := result.post_id,
                           external_url := result.post_url,
                           meta_data := some m },
             reqs)
        else
          match metadataUpdateStep post.meta_data
              [("publish_error", MetaVal.optStr result.error),
               ("publish_attempt", MetaVal.str env.now_iso)] with
          | none => (false, st, reqs)
          | some m =>
            (false,
             savePost st
               { post with status := ContentStatus.failed, meta_data := some m },
             reqs)

/-- An HTTP-layer response of the posts endpoints: a success body or an
`HTTPException` with its status code and detail string. -/
inductive ApiResponse
  | ok (post_id : Nat) (published_time : Option Nat) (external_url : Option String)
  | err (code : Nat) (detail : String)
deriving DecidableEq, Repr

/-- The `publish_post_now` endpoint (posts.py lines 219-271): 404 when the
post does not exist; 400 when it is already Published (checked before any
mutation and before any network call); otherwise the post is set to
Approved and committed, `PostScheduler.publish_post` is invoked, and its
`False` return is surfaced as a 500. -/
def publish_post_now (cfg : PublisherConfig) (env : NetEnv) (dbenv : DbEnv)
    (st : SchedState) (post_id : Nat) : ApiResponse × SchedState × List NetRequest :=
  match getPost st post_id with
  | none =>
    (ApiResponse.err 404 ("Post with ID " ++ toString post_id ++ " not found"),
     st, [])
  | some post =>
    if post.status = ContentStatus.published then
      (ApiResponse.err 400
        ("Post with ID " ++ toString post_id ++ " is already published"),
       st, [])
    else if dbenv.commitFails then
      (ApiResponse.err 500 "Error publishing post", st, [])
    else
      let st1 := savePost st { post with status := ContentStatus.approved }
      let fired := PostScheduler.publish_post cfg env st1 post.id post.platform
      if fired.1 then
        match getPost fired.2.1 post.id with
        | some p2 =>
          (ApiResponse.ok p2.id p2.published_time p2.external_url, fired.2.1, fired.2.2)
        | none => (ApiResponse.err 500 "Error publishing post", fired.2.1, fired.2.2)
      else
        (ApiResponse.err 500 "Failed to publish post", fired.2.1, fired.2.2)

/-! Concrete fixtures used by the closed theorems below. -/

/-- A scheduler environment in which neither the commit nor the job-store
mutation raises. -/
def okDbEnv : DbEnv := { commitFails := false, addJobFails := false }

/-- An environment in which `session.commit()` raises. -/
def commitFailEnv : DbEnv := { commitFails := true, addJobFails := false }

/-- An environment in which the commit succeeds but `add_job` raises. -/
def addJobFailEnv : DbEnv := { commitFails := false, addJobFails := true }

/-- A publishers dictionary with all three platforms fully configured, as
built in `PostScheduler.__init__`. -/
def cfgAll : PublisherConfig :=
  { linkedin := { access_token := some "tok" },
    twitter := { api_key := some "k", api_secret := some "s",
                 access_token := some "t", access_secret := some "x" },
    instagram := { client_id := some "c", client_secret := some "s2",
                   access_token := some "t2" } }

/-- A network environment where the platform answers the publish call with
status 201 and id `urn:li:share:123`, at firing time 3600 (`T+1h`). -/
def linkedinEnv201 : NetEnv :=
  { status_code := 201, response_id := some "urn:li:share:123",
    response_text := "", bearer_token := none,
    fileExists := fun _ => false, now := 3600, now_iso := "T+1h" }

/-- A network environment for Twitter: credentials will authenticate
(bearer token obtained) and the tweet call answers 201. -/
def twitterEnv201 : NetEnv :=
  { status_code := 201, response_id := some "1234",
    response_text := "", bearer_token := some "bearer",
    fileExists := fun _ => false, now := 7, now_iso := "t7" }

/-- A network environment for Instagram answering 200. -/
def instagramEnv200 : NetEnv :=
  { status_code := 200, response_id := some "ig1",
    response_text := "", bearer_token := none,
    fileExists := fun _ => false, now := 10, now_iso := "t10" }

/-- Post 42 of the LinkedIn scenario: Scheduled for time 3600. -/
def post42 : Post :=
  { id := 42, text_content := ['h', 'i'], image_path := none,
    status := ContentStatus.scheduled, platform := Platform.linkedin,
    scheduled_time := some 3600, published_time := none,
    external_id := none, external_url := none, meta_data := none }

/-- State holding post 42 with its job already consumed by the firing. -/
def st42 : SchedState := { posts := [post42], jobs := [] }

/-- A Draft post used to exercise `schedule_post`. -/
def postDraft1 : Post :=
  { id := 1, text_content := [], image_path := none,
    status := ContentStatus.draft, platform := Platform.linkedin,
    scheduled_time := none, published_time := none,
    external_id := none, external_url := none, meta_data := none }

/-- State holding only the draft post. -/
def stDraft1 : SchedState := { posts := [postDraft1], jobs := [] }

/-- An already-Published post, for the `publish_now` conflict path. -/
def postPub2 : Post :=
  { id := 2, text_content := ['z'], image_path := none,
    status := ContentStatus.published, platform := Platform.twitter,
    scheduled_time := none, published_time := some 40,
    external_id := some "e2", external_url := some "u2", meta_data := none }

/-- State holding the already-Published post. -/
def stPub2 : SchedState := { posts := [postPub2], jobs := [] }

/-- A Scheduled post whose job-registry entry is absent. -/
def post6 : Post :=
  { id := 6, text_content := [], image_path := none,
    status := ContentStatus.scheduled, platform := Platform.twitter,
    scheduled_time := some 100, published_time := none,
    external_id := none, external_url := none, meta_data := none }

/-- State with post 6 and an empty job store. -/
def stNoJob6 : SchedState := { posts := [post6], jobs := [] }

/-- State with post 6 and its registry entry present. -/
def stWithJob6 : SchedState :=
  { posts := [post6],
    jobs := [{ job_id := "post_6_twitter", run_date := 100,
               arg_post_id := 6, arg_platform := Platform.twitter }] }

/-- A Scheduled post that was never given a job-registry entry. -/
def post3 : Post :=
  { id := 3, text_content := [], image_path := none,
    status := ContentStatus.scheduled, platform := Platform.linkedin,
    scheduled_time := some 50, published_time := none,
    external_id := none, external_url := none, meta_data := none }

/-- State with post 3 and an empty job store. -/
def st3 : SchedState := { posts := [post3], jobs := [] }

/-- Post 7 of the Instagram scenario: Scheduled, no image attached. -/
def post7 : Post :=
  { id := 7, text_content := ['x'], image_path := none,
    status := ContentStatus.scheduled, platform := Platform.instagram,
    scheduled_time := some 10, published_time := none,
    external_id := none, external_url := none, meta_data := none }

/-- State holding post 7. -/
def st7 : SchedState := { posts := [post7], jobs := [] }

/-- A Scheduled LinkedIn post carrying pre-existing metadata. -/
def post9 : Post :=
  { id := 9, text_content := ['y'], image_path := none,
    status := ContentStatus.scheduled, platform := Platform.linkedin,
    scheduled_time := some 5, published_time := none,
    external_id := none, external_url := none,
    meta_data := some [("k", MetaVal.str "v")] }

/-- State holding post 9. -/
def st9 : SchedState := { posts := [post9], jobs := [] }

/-- A post whose text body is 300 characters long. -/
def post300 : Post :=
  { id := 11, text_content := List.replicate 300 'a', image_path := none,
    status := ContentStatus.approved, platform := Platform.twitter,
    scheduled_time := none, published_time := none,
    external_id := none, external_url := none, meta_data := none }

/-! Helper lemmas about the state operations. -/

/-- Replacing, in a list known to contain a post with `p`'s id, every such
post by `p` makes `p` the first post found under that id. -/
theorem find?_map_replace (p : Post) :
    ∀ ps : List Post, ps.any (fun q => q.id == p.id) = true →
      (ps.map (fun q => if q.id == p.id then p else q)).find?
        (fun q => q.id == p.id) = some p := by
  intro ps
  induction ps with
  | nil => intro h; simp at h
  | cons a as ih =>
    intro h
    by_cases ha : (a.id == p.id) = true
    · rw [List.map_cons, if_pos ha]
      exact List.find?_cons_of_pos _ (by simp)
    · have hfa : (a.id == p.id) = false := by simpa using ha
      have h' : as.any (fun q => q.id == p.id) = true := by
        simpa [List.any_cons, hfa] using h
      have hstep := List.find?_cons_of_neg (p := fun q => q.id == p.id)
        (List.map (fun q => if (q.id == p.id) = true then p else q) as) ha
      rw [List.map_cons, if_neg ha, hstep]
      exact ih h'

/-- After `savePost st p`, looking the post up by `p.id` yields `p`. -/
theorem getPost_savePost (st : SchedState) (p : Post) :
    getPost (savePost st p) p.id = some p := by
  unfold getPost savePost upsertPost
  by_cases h : st.posts.any (fun q => q.id == p.id) = true
  · rw [if_pos h]
    exact find?_map_replace p st.posts h
  · rw [if_neg h, List.find?_append]
    have hnone : st.posts.find? (fun q => q.id == p.id) = none := by
      rw [List.find?_eq_none]
      intro x hx hpx
      exact h (List.any_eq_true.mpr ⟨x, hx, hpx⟩)
    rw [hnone]
    simp

/-- C3: the claim demands at most one in-flight firing per `(post_id,
platform)` key.  The scheduler's own `job_defaults` configuration
(post_scheduler.py lines 41-44) instead allows up to three concurrent
executions of one job id (`max_instances = 3`, with `coalesce = False`), so
the code enforces no single-flight guarantee: APScheduler may run two (even
three) firings of the same key simultaneously. -/
theorem job_defaults_allow_concurrent_firings :
    schedulerJobDefaults.max_instances = 3 ∧
    1 < schedulerJobDefaults.max_instances := by
  constructor <;> decide

/-- C4: a Twitter-class publish submits `tweetTextOf` of the body — the
first 277 characters followed by `...` (total 280) when the body exceeds
280 characters, the body unchanged otherwise — and the truncation is
silent: the returned result dictionary is identical to the one a
pre-truncated body would produce. -/
theorem twitter_truncation_spec (pub : TwitterPublisher) (env : NetEnv) (post : Post)
    (hc : pub.configured = true) (hb : pyTruthyStr env.bearer_token = true) :
    (pub.publish env post).1 =
      [NetRequest.twitterAuth,
       NetRequest.twitterTweet (tweetTextOf post.text_content) (hasValidImage env post)] ∧
    (280 < post.text_content.length →
      tweetTextOf post.text_content = post.text_content.take 277 ++ ['.', '.', '.'] ∧
      (tweetTextOf post.text_content).length = 280) ∧
    (post.text_content.length ≤ 280 → tweetTextOf post.text_content = post.text_content) ∧
    (pub.publish env post).2 =
      (pub.publish env { post with text_content := tweetTextOf post.text_content }).2 := by
  refine ⟨?_, ?_, ?_, ?_⟩
  · by_cases hs : (env.status_code == 201) = true <;>
      simp [TwitterPublisher.publish, hc, hb, hs]
  · intro hlong
    constructor
    · unfold tweetTextOf
      rw [if_pos hlong]
    · unfold tweetTextOf
      rw [if_pos hlong]
      simp only [List.length_append, List.length_take, List.length_cons,
        List.length_nil]
      omega
  · intro hshort
    unfold tweetTextOf
    rw [if_neg (by omega)]
  · by_cases hs : (env.status_code == 201) = true <;>
      simp [TwitterPublisher.publish, hc, hb, hs]

/-- Witness for C4 at a 300-character body: the submitted text is the
277-character head followed by `...`, 280 characters in all. -/
theorem twitter_truncation_spec_witness :
    cfgAll.twitter.configured = true ∧
    pyTruthyStr twitterEnv201.bearer_token = true ∧
    (cfgAll.twitter.publish twitterEnv201 post300).1 =
      [NetRequest.twitterAuth,
       NetRequest.twitterTweet (tweetTextOf post300.text_content)
         (hasValidImage twitterEnv201 post300)] ∧
    tweetTextOf post300.text_content = post300.text_content.take 277 ++ ['.', '.', '.'] ∧
    (tweetTextOf post300.text_content).length = 280 := by
  have h := twitter_truncation_spec cfgAll.twitter twitterEnv201 post300
    (by decide) (by decide)
  have hlen : 280 < post300.text_content.length := by
    show 280 < (List.replicate 300 'a').length
    rw [List.length_replicate]
    omega
  exact ⟨by decide, by decide, h.1, (h.2.1 hlen).1, (h.2.1 hlen).2⟩

/-- C5: `publish_post_now` on a post whose status is already Published is
rejected with the 400 conflict error before any state mutation and before
any network call: the state is returned unchanged and no request is made. -/
theorem publish_now_conflict_rejected (cfg : PublisherConfig) (env : NetEnv)
    (dbenv : DbEnv) (st : SchedState) (pid : Nat) (post : Post)
    (hget : getPost st pid = some post)
    (hpub : post.status = ContentStatus.published) :
    publish_post_now cfg env dbenv st pid =
      (ApiResponse.err 400 ("Post with ID " ++ toString pid ++ " is already published"),
       st, []) := by
  unfold publish_post_now
  rw [hget]
  simp [hpub]

/-- Witness for C5: rejecting `publish_now` on the already-Published post 2
leaves the state untouched and performs no request. -/
theorem publish_now_conflict_rejected_witness :
    getPost stPub2 2 = some postPub2 ∧
    postPub2.status = ContentStatus.published ∧
    publish_post_now cfgAll twitterEnv201 okDbEnv stPub2 2 =
      (ApiResponse.err 400 ("Post with ID " ++ toString 2 ++ " is already published"),
       stPub2, []) :=
  ⟨rfl, rfl,
   publish_now_conflict_rejected cfgAll twitterEnv201 okDbEnv stPub2 2 postPub2 rfl rfl⟩

/-- C10: `schedule_post` checks no precondition on the post's current
status: for every post — whatever its status — when neither the commit nor
the job registration raises, it returns success, stores the post with
status Scheduled and the given `scheduled_time`, and registers (replacing
any previous) the job under the `(post_id, platform)` key. -/
theorem schedule_post_no_status_precondition (env : DbEnv) (st : SchedState)
    (post : Post) (t : Nat)
    (h1 : env.commitFails = false) (h2 : env.addJobFails = false) :
    PostScheduler.schedule_post env st post t =
      (true,
       addOrReplaceJob
         (savePost st { post with status := ContentStatus.scheduled,
                                  scheduled_time := some t })
         { job_id := jobIdFor post.id post.platform, run_date := t,
           arg_post_id := post.id, arg_platform := post.platform }) ∧
    getPost (PostScheduler.schedule_post env st post t).2 post.id =
      some { post with status := ContentStatus.scheduled, scheduled_time := some t } ∧
    jobExists (PostScheduler.schedule_post env st post t).2
      (jobIdFor post.id post.platform) = true := by
  have heq : PostScheduler.schedule_post env st post t =
      (true,
       addOrReplaceJob
         (savePost st { post with status := ContentStatus.scheduled,
                                  scheduled_time := some t })
         { job_id := jobIdFor post.id post.platform, run_date := t,
           arg_post_id := post.id, arg_platform := post.platform }) := by
    unfold PostScheduler.schedule_post
    simp [h1, h2]
  refine ⟨heq, ?_, ?_⟩
  · rw [heq]
    exact getPost_savePost st
      { post with status := ContentStatus.scheduled, scheduled_time := some t }
  · rw [heq]
    simp [jobExists, addOrReplaceJob]

/-- Witness for C10: scheduling the already-Published post 2 — a terminal
status — succeeds, moves it to Scheduled at time 900, and registers its
job. -/
theorem schedule_post_no_status_precondition_witness :
    okDbEnv.commitFails = false ∧ okDbEnv.addJobFails = false ∧
    (PostScheduler.schedule_post okDbEnv stPub2 postPub2 900).1 = true ∧
    getPost (PostScheduler.schedule_post okDbEnv stPub2 postPub2 900).2 2 =
      some { postPub2 with status := ContentStatus.scheduled,
                           scheduled_time := some 900 } ∧
    jobExists (PostScheduler.schedule_post okDbEnv stPub2 postPub2 900).2
      "post_2_twitter" = true :=
  have h := schedule_post_no_status_precondition okDbEnv stPub2 postPub2 900 rfl rfl
  ⟨rfl, rfl, by rw [h.1], h.2.1, h.2.2⟩

/-- C1: in the LinkedIn success scenario — post 42 Scheduled, the platform
answering 201 with id `urn:li:share:123` — the publisher result itself is a
success carrying that id and the expected feed URL, but the firing path
`publish_post` returns `False` and persists nothing: the metadata-recording
step crashes on the reserved `post.metadata` attribute (the model column is
`meta_data`) before the session commit, so the stored post 42 keeps status
Scheduled and never receives external_id, external_url or published_time. -/
theorem linkedin_success_not_persisted :
    (cfgAll.linkedin.publish linkedinEnv201 post42).2.success = true ∧
    (cfgAll.linkedin.publish linkedinEnv201 post42).2.post_id = some "urn:li:share:123" ∧
    (cfgAll.linkedin.publish linkedinEnv201 post42).2.post_url =
      some "https://www.linkedin.com/feed/update/urn:li:share:123" ∧
    PostScheduler.publish_post cfgAll linkedinEnv201 st42 42 Platform.linkedin =
      (false, st42, [NetRequest.linkedinUgcPost post42.text_content false]) ∧
    getPost st42 42 = some post42 ∧ post42.status = ContentStatus.scheduled :=
  ⟨rfl, rfl, by decide, rfl, rfl, rfl⟩

/-- C2 counterexample: with the commit succeeding and `add_job` raising,
`schedule_post` returns failure, yet the previously-Draft post 1 has
already been committed as Scheduled with the new time — the prior state is
not left untouched. -/
theorem schedule_failure_mutates_state_cx :
    (PostScheduler.schedule_post addJobFailEnv stDraft1 postDraft1 500).1 = false ∧
    postDraft1.status = ContentStatus.draft ∧ postDraft1.scheduled_time = none ∧
    getPost (PostScheduler.schedule_post addJobFailEnv stDraft1 postDraft1 500).2 1 =
      some { postDraft1 with status := ContentStatus.scheduled,
                             scheduled_time := some 500 } := by
  decide

/-- C2 (amended): when `schedule_post` returns failure the job registry is
unchanged, and the persisted post state is untouched exactly when the
failure arose in the persistence step; when the failure arose in job
registration, the post has already been committed with status Scheduled and
the new time. -/
theorem schedule_post_failure_effects (env : DbEnv) (st : SchedState)
    (post : Post) (t : Nat)
    (h : (PostScheduler.schedule_post env st post t).1 = false) :
    (PostScheduler.schedule_post env st post t).2.jobs = st.jobs ∧
    (env.commitFails = true → (PostScheduler.schedule_post env st post t).2 = st) ∧
    (env.commitFails = false →
      (PostScheduler.schedule_post env st post t).2 =
        savePost st { post with status := ContentStatus.scheduled,
                                scheduled_time := some t }) := by
  by_cases hc : env.commitFails = true
  · have heq : PostScheduler.schedule_post env st post t = (false, st) := by
      unfold PostScheduler.schedule_post
      simp [hc]
    refine ⟨by rw [heq], fun _ => by rw [heq], fun hcf => ?_⟩
    rw [hc] at hcf
    exact absurd hcf (by decide)
  · have hcf : env.commitFails = false := by simpa using hc
    by_cases ha : env.addJobFails = true
    · have heq : PostScheduler.schedule_post env st post t =
          (false, savePost st { post with status := ContentStatus.scheduled,
                                          scheduled_time := some t }) := by
        unfold PostScheduler.schedule_post
        simp [hcf, ha]
      refine ⟨by rw [heq]; rfl, fun h1 => absurd h1 hc, fun _ => by rw [heq]⟩
    · exfalso
      have haf : env.addJobFails = false := by simpa using ha
      unfold PostScheduler.schedule_post at h
      simp [hcf, haf] at h

/-- Witness for C2 (amended): a failing commit leaves the state fully
untouched. -/
theorem schedule_post_failure_effects_witness :
    (PostScheduler.schedule_post commitFailEnv stDraft1 postDraft1 500).1 = false ∧
    (PostScheduler.schedule_post commitFailEnv stDraft1 postDraft1 500).2 = stDraft1 :=
  ⟨rfl,
   (schedule_post_failure_effects commitFailEnv stDraft1 postDraft1 500 rfl).2.1 rfl⟩

/-- C6 counterexample: rescheduling post 6, whose job-registry entry is
absent, yields the same bare failure value `False` that a persistence
failure yields — no NotFound-class distinction — and has moreover already
committed the new `scheduled_time` before failing. -/
theorem reschedule_missing_job_cx :
    (PostScheduler.reschedule_post okDbEnv stNoJob6 post6 200).1 = false ∧
    (PostScheduler.reschedule_post commitFailEnv stWithJob6 post6 200).1 = false ∧
    getPost (PostScheduler.reschedule_post okDbEnv stNoJob6 post6 200).2 6 =
      some { post6 with scheduled_time := some 200 } := by
  decide

/-- C6 (amended): when the commit succeeds, `reschedule_post` with an
existing job updates the post's `scheduled_time` and replaces the job's
trigger time; with no job it returns the generic failure value `False`
(indistinguishable from other failures), the new `scheduled_time` already
committed. -/
theorem reschedule_post_behavior (env : DbEnv) (st : SchedState)
    (post : Post) (t : Nat) (h : env.commitFails = false) :
    (jobExists (savePost st { post with scheduled_time := some t })
        (jobIdFor post.id post.platform) = true →
      PostScheduler.reschedule_post env st post t =
        (true, rescheduleJobReg (savePost st { post with scheduled_time := some t })
                 (jobIdFor post.id post.platform) t)) ∧
    (jobExists (savePost st { post with scheduled_time := some t })
        (jobIdFor post.id post.platform) = false →
      PostScheduler.reschedule_post env st post t =
        (false, savePost st { post with scheduled_time := some t })) := by
  refine ⟨fun hj => ?_, fun hj => ?_⟩ <;>
    unfold PostScheduler.reschedule_post <;> simp [h, hj]

/-- Witness for C6 (amended): with the job present, rescheduling post 6 to
time 200 succeeds and replaces the trigger. -/
theorem reschedule_post_behavior_witness :
    okDbEnv.commitFails = false ∧
    jobExists (savePost stWithJob6 { post6 with scheduled_time := some 200 })
      (jobIdFor 6 Platform.twitter) = true ∧
    PostScheduler.reschedule_post okDbEnv stWithJob6 post6 200 =
      (true,
       rescheduleJobReg (savePost stWithJob6 { post6 with scheduled_time := some 200 })
         (jobIdFor 6 Platform.twitter) 200) := by
  have h := reschedule_post_behavior okDbEnv stWithJob6 post6 200 rfl
  exact ⟨rfl, by decide, h.1 (by decide)⟩

/-- C7 counterexample: cancelling post 3, which was never scheduled (no
job-registry entry), returns failure — but only after setting its status to
Draft and clearing its `scheduled_time`, both committed: the state is
mutated by the failed cancel. -/
theorem cancel_never_scheduled_cx :
    (PostScheduler.cancel_post okDbEnv st3 post3).1 = false ∧
    post3.status = ContentStatus.scheduled ∧ post3.scheduled_time = some 50 ∧
    getPost (PostScheduler.cancel_post okDbEnv st3 post3).2 3 =
      some { post3 with status := ContentStatus.draft, scheduled_time := none } := by
  decide

/-- C7 (amended): cancelling a post with no job-registry entry returns
failure without raising, but is not side-effect free: the post has already
been committed with status Draft and `scheduled_time` cleared before the
job-removal step fails. -/
theorem cancel_missing_job_mutates (env : DbEnv) (st : SchedState) (post : Post)
    (h : env.commitFails = false)
    (hj : jobExists (savePost st { post with status := ContentStatus.draft,
                                             scheduled_time := none })
            (jobIdFor post.id post.platform) = false) :
    PostScheduler.cancel_post env st post =
      (false, savePost st { post with status := ContentStatus.draft,
                                      scheduled_time := none }) := by
  unfold PostScheduler.cancel_post
  simp [h, hj]

/-- Witness for C7 (amended) at post 3. -/
theorem cancel_missing_job_mutates_witness :
    okDbEnv.commitFails = false ∧
    jobExists (savePost st3 { post3 with status := ContentStatus.draft,
                                         scheduled_time := none })
      (jobIdFor 3 Platform.linkedin) = false ∧
    PostScheduler.cancel_post okDbEnv st3 post3 =
      (false, savePost st3 { post3 with status := ContentStatus.draft,
                                        scheduled_time := none }) :=
  ⟨rfl, by decide, cancel_missing_job_mutates okDbEnv st3 post3 rfl (by decide)⟩

/-- C8: the Instagram publisher fails fast on post 7 (no image attached):
it performs no network request and returns the image-required error.  But
the scheduler's firing path does not record the failure: `publish_post`
returns `False` with the state untouched — the metadata-recording step
crashes on the reserved `post.metadata` attribute before the session
commit, so post 7 keeps status Scheduled instead of becoming Failed with
the error in its metadata. -/
theorem instagram_no_image_fail_fast :
    cfgAll.instagram.configured = true ∧
    (cfgAll.instagram.publish instagramEnv200 post7).1 = [] ∧
    (cfgAll.instagram.publish instagramEnv200 post7).2.success = false ∧
    (cfgAll.instagram.publish instagramEnv200 post7).2.error =
      some "Instagram posts require an image" ∧
    PostScheduler.publish_post cfgAll instagramEnv200 st7 7 Platform.instagram =
      (false, st7, []) ∧
    getPost st7 7 = some post7 ∧ post7.status = ContentStatus.scheduled :=
  ⟨by decide, rfl, rfl, rfl, rfl, rfl, rfl⟩

/-- C9: the scheduler never merges anything into a post's metadata, because
the recording step always crashes: `post.metadata` resolves to the reserved
SQLAlchemy registry attribute (the JSON column is `meta_data`), whose
`update` call raises.  Firing post 9 — whose publisher call succeeds —
returns `False` and leaves the state, including the pre-existing
`meta_data` entry, exactly as it was: no `publish_result` entry is ever
recorded. -/
theorem metadata_recording_never_happens :
    (cfgAll.linkedin.publish linkedinEnv201 post9).2.success = true ∧
    post9.meta_data = some [("k", MetaVal.str "v")] ∧
    PostScheduler.publish_post cfgAll linkedinEnv201 st9 9 Platform.linkedin =
      (false, st9, [NetRequest.linkedinUgcPost post9.text_content false]) ∧
    getPost st9 9 = some post9 :=
  ⟨rfl, rfl, rfl, rfl⟩
